import Mathlib

/-!
Verification of the NFT-minting instruction builder of the Lazorkit examples
repository (`src/app/examples/03-nft-minting/utils/metaplex.ts`).

The core under study is purely computational: given a payer identity, a
freshly generated mint identity and user metadata, it assembles the six
Solana instructions needed to mint a 1-of-1 NFT, hand-encoding the
CreateMetadataAccountV3 and CreateMasterEditionV3 payloads of the Metaplex
Token Metadata program.

Modelling conventions:
* JavaScript byte buffers are `List Nat` with every entry `< 256`;
  `Buffer.concat` is list append.
* JavaScript strings cross into the core only through
  `Buffer.from(str, "utf-8")`; the model therefore manipulates the UTF-8
  byte lists directly (e.g. "N" is `[78]`).
* Public keys and program-derived addresses are modelled symbolically by an
  inductive `Address`: an externally supplied 32-byte key is `Address.key n`
  (two distinct constants have distinct bytes, so distinct indices), and
  `PublicKey.findProgramAddressSync(seeds, programId)` is the constructor
  `Address.pda seeds programId`.  This reflects the collision-freeness of
  the underlying SHA-256 search: distinct derivation inputs yield distinct
  addresses, and a derived (off-curve) address never equals a plain
  (on-curve) key.
* The two effects of `createNFTInstructions` — the random
  `Keypair.generate()` and the awaited rent-exemption query — are passed in
  as explicit parameters (`mintAddress`, `mintRent`); everything after them
  is pure and is modelled exactly.
-/

namespace Metaplex

/-! ### Little-endian integer serialization

Models of the Node `Buffer` writers used by the source:
`writeUInt32LE`, `writeBigUInt64LE`, and the byte view of
`new Uint16Array([v])` on a little-endian host (JavaScript typed arrays
first coerce `v` to `v mod 2^16`). -/

/-- Model of `Buffer.alloc(4)` + `writeUInt32LE n`: four little-endian
bytes of `n` (the writer rejects `n ≥ 2^32`; callers stay below that). -/
def u32le (n : Nat) : List Nat :=
  [n % 256, n / 256 % 256, n / 256 ^ 2 % 256, n / 256 ^ 3 % 256]

/-- Model of the bytes of `new Uint16Array([v]).buffer` on a little-endian
host: JavaScript coerces the element to `v mod 2^16` and lays it out as two
little-endian bytes. -/
def u16le (n : Nat) : List Nat :=
  [n % 256, n / 256 % 256]

/-- Model of `Buffer.alloc(8)` + `writeBigUInt64LE n`: eight little-endian
bytes. -/
def u64le (n : Nat) : List Nat :=
  [n % 256, n / 256 % 256, n / 256 ^ 2 % 256, n / 256 ^ 3 % 256,
   n / 256 ^ 4 % 256, n / 256 ^ 5 % 256, n / 256 ^ 6 % 256, n / 256 ^ 7 % 256]

/-! ### Symbolic addresses -/

/-- Symbolic model of `PublicKey`.  `key n` is an externally supplied
32-byte identity (payer, generated mint, hard-coded program id); `pda` is
the result of `PublicKey.findProgramAddressSync(seeds, programId)`, kept
symbolic: the address is identified by its derivation inputs, reflecting
the collision-freeness of the SHA-256 bump search, and a derived off-curve
address is never byte-equal to a plain key.  A seed is either a literal
byte buffer (`Sum.inl`) or `somePubkey.toBuffer()` (`Sum.inr`). -/
inductive Address where
  | key : Nat → Address
  | pda : List (List Nat ⊕ Address) → Address → Address
deriving Repr

/-- Seed built with `Buffer.from(stringLiteral)`, given as UTF-8 bytes. -/
def seedBytes (l : List Nat) : List Nat ⊕ Address := Sum.inl l

/-- Seed built with `somePubkey.toBuffer()`. -/
def seedKey (a : Address) : List Nat ⊕ Address := Sum.inr a

/-- Model of `PublicKey.findProgramAddressSync(seeds, programId)[0]`. -/
def findProgramAddressSync (seeds : List (List Nat ⊕ Address))
    (programId : Address) : Address :=
  Address.pda seeds programId

/-! ### Program-id constants

Each hard-coded base58 constant is a distinct 32-byte value; the symbolic
model gives each a distinct index. -/

/-- Constant `TOKEN_METADATA_PROGRAM_ID`
("metaqbxxUerdq28cj1RbAWkYQm3ybzjb6a8bt518x1s"). -/
def TOKEN_METADATA_PROGRAM_ID : Address := Address.key 0

/-- Constant `TOKEN_PROGRAM_ID` from `@solana/spl-token`. -/
def TOKEN_PROGRAM_ID : Address := Address.key 1

/-- Constant `ASSOCIATED_TOKEN_PROGRAM_ID` from `@solana/spl-token`. -/
def ASSOCIATED_TOKEN_PROGRAM_ID : Address := Address.key 2

/-- Constant `SystemProgram.programId` ("11111111111111111111111111111111"). -/
def systemProgramId : Address := Address.key 3

/-- Constant `SYSVAR_RENT_PUBKEY`. -/
def SYSVAR_RENT_PUBKEY : Address := Address.key 4

/-! ### Instructions -/

/-- One entry of an instruction's account-reference list. -/
structure AccountMeta where
  pubkey : Address
  isSigner : Bool
  isWritable : Bool
deriving Repr

/-- One segment of an instruction payload: either literal bytes or the
32-byte serialization of a public key (kept symbolic, matching the
symbolic `Address` model). -/
inductive Seg where
  | bytes : List Nat → Seg
  | addr : Address → Seg
deriving Repr

/-- Model of `TransactionInstruction`. -/
structure TransactionInstruction where
  keys : List AccountMeta
  programId : Address
  data : List Seg
deriving Repr

/-! ### The hand-built Metaplex encoders (`metaplex.ts`) -/

/-- Model of `serializeString` (metaplex.ts:386–391): a 4-byte
little-endian length prefixed to the string's UTF-8 bytes.  The string
crosses the boundary as its UTF-8 byte list `s`. -/
def serializeString (s : List Nat) : List Nat :=
  u32le s.length ++ s

/-- Payload bytes built by `createMetadataInstruction`
(metaplex.ts:305–322): discriminator 33, then the DataV2 struct — the
three length-prefixed strings, `seller_fee_basis_points` as a 2-byte
little-endian integer, `creators`/`collection`/`uses` absent (0),
`is_mutable` true (1), `collection_details` absent (0). -/
def createMetadataData (name symbol uri : List Nat)
    (sellerFeeBasisPoints : Nat) : List Nat :=
  [33]
    ++ serializeString name
    ++ serializeString symbol
    ++ serializeString uri
    ++ u16le sellerFeeBasisPoints
    ++ [0]
    ++ [0]
    ++ [0]
    ++ [1]
    ++ [0]

/-- Model of `createMetadataInstruction` (metaplex.ts:291–339). -/
def createMetadataInstruction (metadataAccount mint mintAuthority payer
    updateAuthority : Address) (name symbol uri : List Nat)
    (sellerFeeBasisPoints : Nat) : TransactionInstruction :=
  { keys :=
      [ ⟨metadataAccount, false, true⟩,
        ⟨mint, false, false⟩,
        ⟨mintAuthority, true, false⟩,
        ⟨payer, true, true⟩,
        ⟨updateAuthority, false, false⟩,
        ⟨systemProgramId, false, false⟩,
        ⟨SYSVAR_RENT_PUBKEY, false, false⟩ ],
    programId := TOKEN_METADATA_PROGRAM_ID,
    data := [Seg.bytes (createMetadataData name symbol uri sellerFeeBasisPoints)] }

/-- Payload bytes built by `createMasterEditionInstruction`
(metaplex.ts:352–362): discriminator 17, Option-tag 1 (Some), then the
hard-coded max supply `BigInt(0)` written with `writeBigUInt64LE`. -/
def createMasterEditionData : List Nat :=
  [17] ++ [1] ++ u64le 0

/-- Model of `createMasterEditionInstruction` (metaplex.ts:344–381). -/
def createMasterEditionInstruction (edition mint updateAuthority
    mintAuthority metadata payer : Address) : TransactionInstruction :=
  { keys :=
      [ ⟨edition, false, true⟩,
        ⟨mint, false, true⟩,
        ⟨updateAuthority, true, false⟩,
        ⟨mintAuthority, true, false⟩,
        ⟨payer, true, true⟩,
        ⟨metadata, false, true⟩,
        ⟨TOKEN_PROGRAM_ID, false, false⟩,
        ⟨systemProgramId, false, false⟩,
        ⟨SYSVAR_RENT_PUBKEY, false, false⟩ ],
    programId := TOKEN_METADATA_PROGRAM_ID,
    data := [Seg.bytes createMasterEditionData] }

/-! ### Library instruction builders

Models of the `@solana/web3.js` and `@solana/spl-token` builders that
`createNFTInstructions` calls, following those libraries' published wire
layouts. -/

/-- Constant `MINT_SIZE` from `@solana/spl-token` (span of the 82-byte
mint-account layout). -/
def MINT_SIZE : Nat := 82

/-- Model of `SystemProgram.createAccount({fromPubkey, newAccountPubkey,
space, lamports, programId})`: system-program instruction index 0 as a
4-byte little-endian integer, lamports and space as 8-byte little-endian
integers, then the 32-byte owner program id; funder and new account both
sign and are both writable. -/
def systemCreateAccount (fromPubkey newAccountPubkey : Address)
    (space lamports : Nat) (programId : Address) : TransactionInstruction :=
  { keys :=
      [ ⟨fromPubkey, true, true⟩,
        ⟨newAccountPubkey, true, true⟩ ],
    programId := systemProgramId,
    data := [Seg.bytes (u32le 0 ++ u64le lamports ++ u64le space),
             Seg.addr programId] }

/-- Model of `createInitializeMintInstruction(mint, decimals,
mintAuthority, freezeAuthority, programId)` from `@solana/spl-token`:
token instruction 0, the decimals byte, the 32-byte mint authority, the
freeze-authority option tag (1: the source passes a non-null authority)
and the 32-byte freeze authority; accounts are the mint (writable) and the
rent sysvar. -/
def createInitializeMintInstruction (mint : Address) (decimals : Nat)
    (mintAuthority freezeAuthority : Address) (programId : Address) :
    TransactionInstruction :=
  { keys :=
      [ ⟨mint, false, true⟩,
        ⟨SYSVAR_RENT_PUBKEY, false, false⟩ ],
    programId := programId,
    data := [Seg.bytes [0, decimals % 256],
             Seg.addr mintAuthority,
             Seg.bytes [1],
             Seg.addr freezeAuthority] }

/-- Model of `getAssociatedTokenAddress(mint, owner, allowOwnerOffCurve)`
from `@solana/spl-token`: the program-derived address with seeds
`[owner, tokenProgramId, mint]` under the associated-token program. -/
def getAssociatedTokenAddress (mint owner : Address) : Address :=
  findProgramAddressSync
    [seedKey owner, seedKey TOKEN_PROGRAM_ID, seedKey mint]
    ASSOCIATED_TOKEN_PROGRAM_ID

/-- Model of `createAssociatedTokenAccountInstruction(payer,
associatedToken, owner, mint, programId, associatedTokenProgramId)` from
`@solana/spl-token`: empty payload, accounts payer (signer, writable),
associated token account (writable), owner, mint, system program, token
program. -/
def createAssociatedTokenAccountInstruction (payer associatedToken owner
    mint programId associatedTokenProgramId : Address) :
    TransactionInstruction :=
  { keys :=
      [ ⟨payer, true, true⟩,
        ⟨associatedToken, false, true⟩,
        ⟨owner, false, false⟩,
        ⟨mint, false, false⟩,
        ⟨systemProgramId, false, false⟩,
        ⟨programId, false, false⟩ ],
    programId := associatedTokenProgramId,
    data := [] }

/-- Model of spl-token's internal `addSigners(keys, ownerOrAuthority,
multiSigners)`: with no multisig the authority itself signs; otherwise the
authority is read-only and each multisig member signs. -/
def addSigners (keys : List AccountMeta) (ownerOrAuthority : Address)
    (multiSigners : List Address) : List AccountMeta :=
  match multiSigners with
  | [] => keys ++ [⟨ownerOrAuthority, true, false⟩]
  | _ :: _ =>
      keys ++ [⟨ownerOrAuthority, false, false⟩]
        ++ multiSigners.map (fun s => ⟨s, true, false⟩)

/-- Model of `createMintToInstruction(mint, destination, authority,
amount, multiSigners, programId)` from `@solana/spl-token`: token
instruction 7 (MintTo) followed by the amount as an 8-byte little-endian
integer; accounts are mint (writable), destination (writable), then the
signer set. -/
def createMintToInstruction (mint destination authority : Address)
    (amount : Nat) (multiSigners : List Address) (programId : Address) :
    TransactionInstruction :=
  { keys := addSigners [⟨mint, false, true⟩, ⟨destination, false, true⟩]
      authority multiSigners,
    programId := programId,
    data := [Seg.bytes (7 :: u64le amount)] }

/-! ### Address-derivation helpers (`metaplex.ts`) -/

/-- UTF-8 bytes of the string literal "metadata". -/
def metadataSeed : List Nat := [109, 101, 116, 97, 100, 97, 116, 97]

/-- UTF-8 bytes of the string literal "edition". -/
def editionSeed : List Nat := [101, 100, 105, 116, 105, 111, 110]

/-- Model of `getMetadataAddress` (metaplex.ts:98–108): PDA with seeds
`["metadata", TOKEN_METADATA_PROGRAM_ID, mint]` owned by the token
metadata program. -/
def getMetadataAddress (mint : Address) : Address :=
  findProgramAddressSync
    [seedBytes metadataSeed,
     seedKey TOKEN_METADATA_PROGRAM_ID,
     seedKey mint]
    TOKEN_METADATA_PROGRAM_ID

/-- Model of `getMasterEditionAddress` (metaplex.ts:116–127): PDA with
seeds `["metadata", TOKEN_METADATA_PROGRAM_ID, mint, "edition"]` owned by
the token metadata program. -/
def getMasterEditionAddress (mint : Address) : Address :=
  findProgramAddressSync
    [seedBytes metadataSeed,
     seedKey TOKEN_METADATA_PROGRAM_ID,
     seedKey mint,
     seedBytes editionSeed]
    TOKEN_METADATA_PROGRAM_ID

/-! ### Plan assembly (`createNFTInstructions`) -/

/-- Model of the `NFTMetadataInput` interface (metaplex.ts:57–68).
String fields cross the boundary as UTF-8 byte lists; the optional
`sellerFeeBasisPoints` is an `Option`. -/
structure NFTMetadataInput where
  name : List Nat
  symbol : List Nat
  description : List Nat
  uri : List Nat
  sellerFeeBasisPoints : Option Nat
deriving Repr

/-- Model of the `CreateNFTResult` interface (metaplex.ts:73–86); only the
public half of the mint keypair is relevant to the core. -/
structure CreateNFTResult where
  instructions : List TransactionInstruction
  mintAddress : Address
  tokenAccount : Address
  metadataAddress : Address
  masterEditionAddress : Address
deriving Repr

/-- Model of `createNFTInstructions` (metaplex.ts:149–279).  The two
effects are passed in explicitly: `mintAddress` stands for the freshly
generated `Keypair.generate().publicKey`, and `mintRent` for the awaited
`getMinimumBalanceForRentExemptMint(connection)` result.  Everything else
follows the source line by line: derive the associated token account and
the two PDAs, then push the six instructions; `sellerFeeBasisPoints || 0`
becomes `getD 0` (JavaScript `||` also sends an explicit 0 to 0). -/
def createNFTInstructions (mintRent : Nat) (payer mintAddress : Address)
    (metadata : NFTMetadataInput) : CreateNFTResult :=
  let tokenAccount := getAssociatedTokenAddress mintAddress payer
  let metadataAddress := getMetadataAddress mintAddress
  let masterEditionAddress := getMasterEditionAddress mintAddress
  { instructions :=
      [ systemCreateAccount payer mintAddress MINT_SIZE mintRent
          TOKEN_PROGRAM_ID,
        createInitializeMintInstruction mintAddress 0 payer payer
          TOKEN_PROGRAM_ID,
        createAssociatedTokenAccountInstruction payer tokenAccount payer
          mintAddress TOKEN_PROGRAM_ID ASSOCIATED_TOKEN_PROGRAM_ID,
        createMintToInstruction mintAddress tokenAccount payer 1 []
          TOKEN_PROGRAM_ID,
        createMetadataInstruction metadataAddress mintAddress payer payer
          payer metadata.name metadata.symbol metadata.uri
          (metadata.sellerFeeBasisPoints.getD 0),
        createMasterEditionInstruction masterEditionAddress mintAddress
          payer payer metadataAddress payer ],
    mintAddress := mintAddress,
    tokenAccount := tokenAccount,
    metadataAddress := metadataAddress,
    masterEditionAddress := masterEditionAddress }

/-! ### Layout decoder

Decoder for the published CreateMetadataAccountV3 field layout (spec §4.3),
used to state the round-trip property: discriminator 33, three
length-prefixed UTF-8 strings, a 2-byte little-endian
`seller_fee_basis_points`, the three Option tags (this decoder covers the
absent case, tag 0, the only one this core emits), the `is_mutable` byte
and the `collection_details` tag, with nothing trailing. -/

/-- Reads a 4-byte little-endian integer from the head of a byte list. -/
def readU32LE : List Nat → Option (Nat × List Nat)
  | a :: b :: c :: d :: rest =>
      some (a + 256 * b + 256 ^ 2 * c + 256 ^ 3 * d, rest)
  | _ => none

/-- Reads a 2-byte little-endian integer from the head of a byte list. -/
def readU16LE : List Nat → Option (Nat × List Nat)
  | a :: b :: rest => some (a + 256 * b, rest)
  | _ => none

/-- Reads `n` raw bytes from the head of a byte list. -/
def readChunk (n : Nat) (l : List Nat) : Option (List Nat × List Nat) :=
  if n ≤ l.length then some (l.take n, l.drop n) else none

/-- Reads one length-prefixed string: a 4-byte little-endian length
followed by that many bytes. -/
def readString (l : List Nat) : Option (List Nat × List Nat) :=
  match readU32LE l with
  | some (n, rest) => readChunk n rest
  | none => none

/-- Decodes a CreateMetadataAccountV3 payload according to the published
field layout, recovering the name, symbol, uri and royalty fields.  The
trailer must consist of exactly the three absent-Option tags (0), the
`is_mutable` byte and the absent `collection_details` tag (0). -/
def decodeCreateMetadataV3 (l : List Nat) :
    Option (List Nat × List Nat × List Nat × Nat) :=
  match l with
  | 33 :: rest =>
    match readString rest with
    | some (name, r1) =>
      match readString r1 with
      | some (symbol, r2) =>
        match readString r2 with
        | some (uri, r3) =>
          match readU16LE r3 with
          | some (fee, r4) =>
            match r4 with
            | [0, 0, 0, _, 0] => some (name, symbol, uri, fee)
            | _ => none
          | none => none
        | none => none
      | none => none
    | none => none
  | _ => none

/-! ### Serialization lemmas -/

/-- Decoding a 4-byte little-endian prefix recovers the written value. -/
theorem readU32LE_u32le (n : Nat) (h : n < 2 ^ 32) (rest : List Nat) :
    readU32LE (u32le n ++ rest) = some (n, rest) := by
  simp [u32le, readU32LE]
  omega

/-- Decoding a 2-byte little-endian prefix recovers the written value. -/
theorem readU16LE_u16le (n : Nat) (h : n < 2 ^ 16) (rest : List Nat) :
    readU16LE (u16le n ++ rest) = some (n, rest) := by
  simp [u16le, readU16LE]
  omega

/-- Reading back exactly the chunk that was appended returns it whole. -/
theorem readChunk_append (s rest : List Nat) :
    readChunk s.length (s ++ rest) = some (s, rest) := by
  simp [readChunk]

/-- Reading a serialized string recovers the original byte string. -/
theorem readString_serializeString (s : List Nat) (h : s.length < 2 ^ 32)
    (rest : List Nat) :
    readString (serializeString s ++ rest) = some (s, rest) := by
  simp [readString, serializeString, List.append_assoc, readU32LE_u32le _ h,
    readChunk_append]

/-! ### Claim theorems -/

/-- C1: for every name, symbol, uri and royaltyBps, the payload produced
by the CreateMetadataAccountV3 encoder is the concatenation, in order, of
the single discriminator byte 33; name, symbol and uri each as a 4-byte
little-endian length prefix followed by the string's UTF-8 bytes;
royaltyBps as a 2-byte little-endian unsigned integer; then exactly the
five bytes [0,0,0,1,0].  The payload starts with byte 33 and ends with
[0,0,0,1,0]. -/
theorem createMetadata_payload_layout (name symbol uri : List Nat)
    (fee : Nat) (hn : name.length < 2 ^ 32) (hs : symbol.length < 2 ^ 32)
    (hu : uri.length < 2 ^ 32) (hf : fee < 2 ^ 16) :
    createMetadataData name symbol uri fee =
      [33]
        ++ ([name.length % 256, name.length / 256 % 256,
             name.length / 65536 % 256, name.length / 16777216] ++ name)
        ++ ([symbol.length % 256, symbol.length / 256 % 256,
             symbol.length / 65536 % 256, symbol.length / 16777216]
              ++ symbol)
        ++ ([uri.length % 256, uri.length / 256 % 256,
             uri.length / 65536 % 256, uri.length / 16777216] ++ uri)
        ++ [fee % 256, fee / 256]
        ++ [0, 0, 0, 1, 0]
      ∧ (createMetadataData name symbol uri fee).head? = some 33
      ∧ [0, 0, 0, 1, 0] <:+ createMetadataData name symbol uri fee := by
  refine ⟨?_, ?_, ?_⟩
  · have e1 : name.length / 256 ^ 3 % 256 = name.length / 16777216 := by
      omega
    have e2 : symbol.length / 256 ^ 3 % 256 = symbol.length / 16777216 := by
      omega
    have e3 : uri.length / 256 ^ 3 % 256 = uri.length / 16777216 := by
      omega
    have e4 : fee / 256 % 256 = fee / 256 := by omega
    simp [createMetadataData, serializeString, u32le, u16le, e1, e2, e3, e4]
    omega
  · simp [createMetadataData]
  · exact ⟨[33] ++ serializeString name ++ serializeString symbol
      ++ serializeString uri ++ u16le fee,
      by simp [createMetadataData]⟩

/-- C1 witness: at name "N" ([78]), symbol "S" ([83]), uri "U" ([85]) and
royalty 250, the encoder yields the concrete layout bytes, starting with
33 and ending with [0,0,0,1,0]. -/
theorem createMetadata_payload_layout_witness :
    createMetadataData [78] [83] [85] 250 =
      [33, 1, 0, 0, 0, 78, 1, 0, 0, 0, 83, 1, 0, 0, 0, 85, 250, 0,
       0, 0, 0, 1, 0] := by
  have h := createMetadata_payload_layout [78] [83] [85] 250 (by decide)
    (by decide) (by decide) (by decide)
  simpa using h.1

/-- C2: the CreateMasterEditionV3 encoder always produces the 10-byte
payload [17, 1, 0,0,0,0,0,0,0,0] — discriminator 17, Option-tag 1 (Some),
and the 8-byte little-endian max supply 0, which this core hard-codes. -/
theorem createMasterEdition_payload (edition mint updateAuthority
    mintAuthority metadata payer : Address) :
    (createMasterEditionInstruction edition mint updateAuthority
        mintAuthority metadata payer).data =
      [Seg.bytes [17, 1, 0, 0, 0, 0, 0, 0, 0, 0]]
    ∧ createMasterEditionData = [17, 1, 0, 0, 0, 0, 0, 0, 0, 0]
    ∧ createMasterEditionData.length = 10 :=
  ⟨rfl, rfl, rfl⟩

/-- C3: for every payer, generated mint, rent value and metadata input,
`createNFTInstructions` returns exactly 6 instructions in fixed order:
system-program account creation for the mint (space 82, owner the token
program), mint initialization with decimals 0 and the payer as both mint
and freeze authority, associated-token-account creation, a mint-to of
exactly 1 unit into the holding account, the create-metadata instruction,
and the create-master-edition instruction. -/
theorem createNFTInstructions_six_in_order (mintRent : Nat)
    (payer mintAddress : Address) (metadata : NFTMetadataInput) :
    (createNFTInstructions mintRent payer mintAddress metadata).instructions
      =
      [ { keys := [⟨payer, true, true⟩, ⟨mintAddress, true, true⟩],
          programId := systemProgramId,
          data := [Seg.bytes ([0, 0, 0, 0] ++ u64le mintRent
                     ++ [82, 0, 0, 0, 0, 0, 0, 0]),
                   Seg.addr TOKEN_PROGRAM_ID] },
        { keys := [⟨mintAddress, false, true⟩,
                   ⟨SYSVAR_RENT_PUBKEY, false, false⟩],
          programId := TOKEN_PROGRAM_ID,
          data := [Seg.bytes [0, 0], Seg.addr payer, Seg.bytes [1],
                   Seg.addr payer] },
        { keys := [⟨payer, true, true⟩,
                   ⟨getAssociatedTokenAddress mintAddress payer, false, true⟩,
                   ⟨payer, false, false⟩,
                   ⟨mintAddress, false, false⟩,
                   ⟨systemProgramId, false, false⟩,
                   ⟨TOKEN_PROGRAM_ID, false, false⟩],
          programId := ASSOCIATED_TOKEN_PROGRAM_ID,
          data := [] },
        { keys := [⟨mintAddress, false, true⟩,
                   ⟨getAssociatedTokenAddress mintAddress payer, false, true⟩,
                   ⟨payer, true, false⟩],
          programId := TOKEN_PROGRAM_ID,
          data := [Seg.bytes [7, 1, 0, 0, 0, 0, 0, 0, 0]] },
        createMetadataInstruction (getMetadataAddress mintAddress)
          mintAddress payer payer payer metadata.name metadata.symbol
          metadata.uri (metadata.sellerFeeBasisPoints.getD 0),
        createMasterEditionInstruction (getMasterEditionAddress mintAddress)
          mintAddress payer payer (getMetadataAddress mintAddress) payer ]
    ∧ (createNFTInstructions mintRent payer mintAddress
        metadata).instructions.length = 6 :=
  ⟨rfl, rfl⟩

/-- C5: the account-reference lists of the two hand-built instructions are
fixed in content, order and flags: create-metadata lists metadata address
(writable), mint (readonly), mint authority (signer), payer (signer,
writable), update authority (readonly), system program (readonly), rent
sysvar (readonly); create-master-edition lists master-edition address
(writable), mint (writable), update authority (signer), mint authority
(signer), payer (signer, writable), metadata address (writable), token
program (readonly), system program (readonly), rent sysvar (readonly). -/
theorem handbuilt_instruction_account_lists (metadataAccount mint
    mintAuthority payer updateAuthority edition : Address)
    (name symbol uri : List Nat) (fee : Nat) :
    (createMetadataInstruction metadataAccount mint mintAuthority payer
        updateAuthority name symbol uri fee).keys =
      [ ⟨metadataAccount, false, true⟩,
        ⟨mint, false, false⟩,
        ⟨mintAuthority, true, false⟩,
        ⟨payer, true, true⟩,
        ⟨updateAuthority, false, false⟩,
        ⟨systemProgramId, false, false⟩,
        ⟨SYSVAR_RENT_PUBKEY, false, false⟩ ]
    ∧ (createMasterEditionInstruction edition mint updateAuthority
        mintAuthority metadataAccount payer).keys =
      [ ⟨edition, false, true⟩,
        ⟨mint, false, true⟩,
        ⟨updateAuthority, true, false⟩,
        ⟨mintAuthority, true, false⟩,
        ⟨payer, true, true⟩,
        ⟨metadataAccount, false, true⟩,
        ⟨TOKEN_PROGRAM_ID, false, false⟩,
        ⟨systemProgramId, false, false⟩,
        ⟨SYSVAR_RENT_PUBKEY, false, false⟩ ] :=
  ⟨rfl, rfl⟩

/-- C6: `getMetadataAddress` derives its address from exactly the seed
sequence ["metadata", metadataProgramId, mint] under the metadata
program's ownership, and `getMasterEditionAddress` runs the same
derivation with seed sequence ["metadata", metadataProgramId, mint,
"edition"], whose final seed segment is distinct from the metadata
derivation's final seed segment. -/
theorem derived_address_seed_sequences (mint : Address) :
    getMetadataAddress mint =
      Address.pda
        [Sum.inl [109, 101, 116, 97, 100, 97, 116, 97],
         Sum.inr TOKEN_METADATA_PROGRAM_ID,
         Sum.inr mint]
        TOKEN_METADATA_PROGRAM_ID
    ∧ getMasterEditionAddress mint =
      Address.pda
        [Sum.inl [109, 101, 116, 97, 100, 97, 116, 97],
         Sum.inr TOKEN_METADATA_PROGRAM_ID,
         Sum.inr mint,
         Sum.inl [101, 100, 105, 116, 105, 111, 110]]
        TOKEN_METADATA_PROGRAM_ID
    ∧ List.getLast?
        [seedBytes metadataSeed, seedKey TOKEN_METADATA_PROGRAM_ID,
         seedKey mint] ≠
      List.getLast?
        [seedBytes metadataSeed, seedKey TOKEN_METADATA_PROGRAM_ID,
         seedKey mint, seedBytes editionSeed] := by
  refine ⟨rfl, rfl, ?_⟩
  simp [seedBytes, seedKey, List.getLast?]

/-- C7: for every mint, the two derivations are deterministic (equal
inputs give equal addresses), and the derived metadata and master-edition
addresses differ from each other and from the mint itself. -/
theorem derived_addresses_deterministic_and_distinct (mint : Address) :
    getMetadataAddress mint = getMetadataAddress mint
    ∧ getMasterEditionAddress mint = getMasterEditionAddress mint
    ∧ getMetadataAddress mint ≠ getMasterEditionAddress mint
    ∧ getMetadataAddress mint ≠ mint
    ∧ getMasterEditionAddress mint ≠ mint := by
  refine ⟨rfl, rfl, ?_, ?_, ?_⟩
  · intro h
    simp [getMetadataAddress, getMasterEditionAddress,
      findProgramAddressSync, seedBytes, seedKey] at h
  · intro h
    have h2 := congrArg sizeOf h
    simp [getMetadataAddress, findProgramAddressSync, seedBytes, seedKey,
      metadataSeed, TOKEN_METADATA_PROGRAM_ID] at h2
    omega
  · intro h
    have h2 := congrArg sizeOf h
    simp [getMasterEditionAddress, findProgramAddressSync, seedBytes,
      seedKey, metadataSeed, editionSeed, TOKEN_METADATA_PROGRAM_ID] at h2
    omega

/-- C8: for every valid metadata input (name within 32 bytes, symbol
within 10, non-empty URI of buffer-representable length, royalty within
[0,10000]), decoding the CreateMetadataAccountV3 payload by the published
field layout recovers the original name, symbol, uri and royalty
exactly. -/
theorem createMetadata_roundtrip (name symbol uri : List Nat) (fee : Nat)
    (hn : name.length ≤ 32) (hs : symbol.length ≤ 10) (hu : uri ≠ [])
    (hul : uri.length < 2 ^ 32) (hf : fee ≤ 10000) :
    decodeCreateMetadataV3 (createMetadataData name symbol uri fee) =
      some (name, symbol, uri, fee) := by
  have hn' : name.length < 2 ^ 32 := by omega
  have hs' : symbol.length < 2 ^ 32 := by omega
  have hf' : fee < 2 ^ 16 := by omega
  simp only [createMetadataData, List.append_assoc, List.cons_append,
    List.nil_append]
  simp only [decodeCreateMetadataV3, readString_serializeString name hn',
    readString_serializeString symbol hs',
    readString_serializeString uri hul, readU16LE_u16le fee hf']

/-- C8 witness: the round trip at name "N", symbol "S", uri "U", royalty
250. -/
theorem createMetadata_roundtrip_witness :
    decodeCreateMetadataV3 (createMetadataData [78] [83] [85] 250) =
      some ([78], [83], [85], 250) :=
  createMetadata_roundtrip [78] [83] [85] 250 (by decide) (by decide)
    (by decide) (by decide) (by decide)

/-- C9: the description field is accepted but never encoded — holding the
mint identity and rent value fixed, two metadata inputs differing only in
description give identical results: byte-identical instruction payloads
and identical account-reference lists. -/
theorem description_not_encoded (mintRent : Nat) (payer mintAddress : Address)
    (metadata : NFTMetadataInput) (d : List Nat) :
    createNFTInstructions mintRent payer mintAddress
        { metadata with description := d } =
      createNFTInstructions mintRent payer mintAddress metadata :=
  rfl

/-- C10: the seller_fee_basis_points field is emitted as the low 16 bits
of the given integer, little-endian, so values at or above 2^16 wrap
silently (65536 encodes as [0,0]); and when the caller omits
`sellerFeeBasisPoints`, `createNFTInstructions` encodes 0. -/
theorem royalty_low16_wrap_and_default (name symbol uri descr : List Nat)
    (fee mintRent : Nat) (payer mintAddress : Address) :
    createMetadataData name symbol uri fee =
      [33] ++ serializeString name ++ serializeString symbol
        ++ serializeString uri
        ++ [fee % 65536 % 256, fee % 65536 / 256] ++ [0, 0, 0, 1, 0]
    ∧ createMetadataData [] [] [] 65536 =
      [33, 0, 0, 0, 0, 0, 0, 0, 0, 0, 0, 0, 0, 0, 0, 0, 0, 0, 1, 0]
    ∧ (createNFTInstructions mintRent payer mintAddress
        { name := name, symbol := symbol, description := descr,
          uri := uri, sellerFeeBasisPoints := none }).instructions[4]? =
      some (createMetadataInstruction (getMetadataAddress mintAddress)
        mintAddress payer payer payer name symbol uri 0) := by
  refine ⟨?_, by decide, rfl⟩
  have h1 : fee % 65536 % 256 = fee % 256 := by omega
  have h2 : fee % 65536 / 256 = fee / 256 % 256 := by omega
  rw [h1, h2]
  simp [createMetadataData, u16le]

/-- C4 counterexample: `createNFTInstructions` does not validate its
metadata input — applied to a 33-byte name, an 11-byte symbol, an empty
URI and royalty 10001 simultaneously, it still emits the full 6-element
instruction list instead of failing fast with any error. -/
theorem createNFTInstructions_no_validation_cex :
    32 < (List.replicate 33 97).length
    ∧ 10 < ([66, 65, 68, 66, 65, 68, 66, 65, 68, 66, 65] : List Nat).length
    ∧ 10000 < 10001
    ∧ (createNFTInstructions 1461600 (Address.key 100) (Address.key 101)
        { name := List.replicate 33 97,
          symbol := [66, 65, 68, 66, 65, 68, 66, 65, 68, 66, 65],
          description := [],
          uri := [],
          sellerFeeBasisPoints := some 10001 }).instructions.length = 6 :=
  ⟨by decide, by decide, by decide, rfl⟩

/-- C4 amended: `createNFTInstructions` performs no validation of its
metadata input: even when the name exceeds 32 UTF-8 bytes, the symbol
exceeds 10, the URI is empty, or the royalty exceeds 10000, it emits the
complete 6-instruction plan and raises no error. -/
theorem createNFTInstructions_no_validation (mintRent : Nat)
    (payer mintAddress : Address) (metadata : NFTMetadataInput)
    (hinvalid : 32 < metadata.name.length
      ∨ 10 < metadata.symbol.length
      ∨ metadata.uri = []
      ∨ 10000 < metadata.sellerFeeBasisPoints.getD 0) :
    (createNFTInstructions mintRent payer mintAddress
      metadata).instructions.length = 6 :=
  rfl

/-- C4 amended witness: a 33-byte name is invalid by the spec's budget,
yet the full 6-instruction plan is produced. -/
theorem createNFTInstructions_no_validation_witness :
    (32 < (List.replicate 33 98).length
      ∨ 10 < ([76] : List Nat).length
      ∨ ([104] : List Nat) = []
      ∨ 10000 < ((some 500).getD 0 : Nat))
    ∧ (createNFTInstructions 1461600 (Address.key 102) (Address.key 103)
        { name := List.replicate 33 98, symbol := [76], description := [],
          uri := [104], sellerFeeBasisPoints := some 500 }).instructions.length
      = 6 :=
  ⟨by decide,
   createNFTInstructions_no_validation 1461600 (Address.key 102)
     (Address.key 103)
     { name := List.replicate 33 98, symbol := [76], description := [],
       uri := [104], sellerFeeBasisPoints := some 500 }
     (by decide)⟩

end Metaplex
